import Mathlib

/-!
Shallow embedding of `src/pre_commit_vauxoo/pre_commit_vauxoo.py` and proofs
about its specification.  Strings are modelled as Lean `String`s (lists of
characters); all string operations used by the program (`str.startswith`,
`in` substring tests, `str.replace`, `str.split`, `str.strip`, `re.escape`,
and the `re_export` regular expression) are re-implemented here as structural
recursions over the character list so that every definition evaluates by
kernel reduction.
-/

namespace PreCommitVauxoo

/-- Double-quote character. -/
def quoteD : Char := Char.ofNat 34

/-- Single-quote character. -/
def quoteS : Char := Char.ofNat 39

/-- Left curly brace character. -/
def braceL : Char := Char.ofNat 123

/-- Right curly brace character. -/
def braceR : Char := Char.ofNat 125

/-- Python regex `\w` on ASCII input: letters, digits and underscore. -/
def isWordChar (c : Char) : Bool := c.isAlphanum || c = '_'

/-- Python `str.strip` whitespace set (ASCII). -/
def isSpaceChar (c : Char) : Bool :=
  c = ' ' || c = '\t' || c = '\n' || c = '\r' || c = Char.ofNat 11 || c = Char.ofNat 12

/-- The character class of the `value` group of `re_export`:
`[\w\.\-\_/\$\{\}\:,\(\)\#\* ]`. -/
def isValueChar (c : Char) : Bool :=
  isWordChar c || c = '.' || c = '-' || c = '_' || c = '/' || c = '$' ||
  c = braceL || c = braceR || c = ':' || c = ',' || c = '(' || c = ')' ||
  c = '#' || c = '*' || c = ' '

/-- The characters `re.escape` (Python >= 3.7) prefixes with a backslash. -/
def isReSpecialChar (c : Char) : Bool :=
  c = '(' || c = ')' || c = '[' || c = ']' || c = braceL || c = braceR ||
  c = '?' || c = '*' || c = '+' || c = '-' || c = '|' || c = '^' || c = '$' ||
  c = '\\' || c = '.' || c = '&' || c = '~' || c = '#' || c = ' ' ||
  c = '\t' || c = '\n' || c = '\r' || c = Char.ofNat 11 || c = Char.ofNat 12

/-- Does the list start with the given pattern? (`str.startswith`). -/
def startsWithL : List Char → List Char → Bool
  | _, [] => true
  | [], _ :: _ => false
  | a :: s, b :: p => a = b && startsWithL s p

/-- Substring test, Python's `pat in s`. -/
def containsSubL : List Char → List Char → Bool
  | s, pat =>
    match s with
    | [] => pat.isEmpty
    | _ :: rest => startsWithL s pat || containsSubL rest pat

/-- Greedy span: longest prefix whose characters satisfy `p`, and the rest. -/
def takeSpan (p : Char → Bool) : List Char → (List Char × List Char)
  | [] => ([], [])
  | c :: rest =>
    if p c then
      let r := takeSpan p rest
      (c :: r.1, r.2)
    else ([], c :: rest)

/-- Python `str.strip()` on a character list. -/
def trimL (l : List Char) : List Char :=
  ((l.dropWhile isSpaceChar).reverse.dropWhile isSpaceChar).reverse

/-- Split on the comma character, Python `s.split(",")`. -/
def splitCommaAux : List Char → List Char → List (List Char)
  | [], cur => [cur.reverse]
  | c :: rest, cur =>
    if c = ',' then cur.reverse :: splitCommaAux rest []
    else splitCommaAux rest (c :: cur)

/-- Fueled left-to-right non-overlapping replacement, Python `str.replace`
for a non-empty pattern (the program only calls it with pattern `"R0000"`). -/
def replaceAux : Nat → List Char → List Char → List Char → List Char
  | 0, s, _, _ => s
  | _ + 1, [], _, _ => []
  | fuel + 1, c :: rest, pat, rep =>
    if startsWithL (c :: rest) pat && !pat.isEmpty then
      rep ++ replaceAux fuel ((c :: rest).drop pat.length) pat rep
    else c :: replaceAux fuel rest pat rep

/-- Join strings with a separator, Python `sep.join(l)`. -/
def joinSep (sep : String) : List String → String
  | [] => ""
  | [s] => s
  | s :: rest => s ++ sep ++ joinSep sep rest

/-- `str.startswith` on `String`. -/
def strStartsWith (s pat : String) : Bool := startsWithL s.data pat.data

/-- Python `pat in s` on `String`. -/
def strContains (s pat : String) : Bool := containsSubL s.data pat.data

/-- Python `s.strip()` on `String`. -/
def strTrim (s : String) : String := String.mk (trimL s.data)

/-- Python `s.split(",")` on `String`. -/
def splitComma (s : String) : List String := (splitCommaAux s.data []).map String.mk

/-- Python `s.replace(pat, rep)` on `String` (non-empty `pat`). -/
def strReplace (s pat rep : String) : String :=
  String.mk (replaceAux s.data.length s.data pat.data rep.data)

/-- Python `re.escape` (3.7 semantics: backslash before special characters). -/
def reEscape (s : String) : String :=
  String.mk (s.data.foldr (fun c acc => if isReSpecialChar c then '\\' :: c :: acc else c :: acc) [])

/-!
## The `re_export` regular expression

```
^(?P<export>export|EXPORT)( )+(?P<variable>[\w]*)[ ]*[\=][ ]*[\"\']{0,1}
(?P<value>[\w\.\-\_/\$\{\}\:,\(\)\#\* ]*)[\"\']{0,1}
```

used via `re_export.match(line)`, i.e. anchored at the start of the line.
Because no character class overlaps its successor's first-character set, the
greedy maximal-munch parse below is equivalent to the backtracking regex
semantics.  Returns the `variable` and `value` groups on a match.
-/

/-- The part of `re_export` after the keyword group:
`( )+(?P<variable>[\w]*)[ ]*[\=][ ]*[\"\']{0,1}(?P<value>...)[\"\']{0,1}`. -/
def re_export_rest (rest : List Char) : Option (List Char × List Char) :=
  let sp := takeSpan (fun c => c = ' ') rest
  if sp.1.isEmpty then none
  else
    let var := takeSpan isWordChar sp.2
    let sp2 := takeSpan (fun c => c = ' ') var.2
    match sp2.2 with
    | '=' :: rest2 =>
      let sp3 := takeSpan (fun c => c = ' ') rest2
      let afterQuote :=
        match sp3.2 with
        | [] => ([] : List Char)
        | c :: rest3 => if c = quoteD || c = quoteS then rest3 else c :: rest3
      let value := takeSpan isValueChar afterQuote
      some (var.1, value.1)
    | _ => none

/-- `re_export.match` on a character list: `some (variable, value)` or `none`.
The keyword group `(export|EXPORT)` is case-sensitive on each alternative. -/
def re_export_matchL (cs : List Char) : Option (List Char × List Char) :=
  if startsWithL cs ("export".data) then re_export_rest (cs.drop 6)
  else if startsWithL cs ("EXPORT".data) then re_export_rest (cs.drop 6)
  else none

/-- `re_export.match` on a `String`, returning the two named groups. -/
def re_export_match (line : String) : Option (String × String) :=
  (re_export_matchL line.data).map (fun p => (String.mk p.1, String.mk p.2))

/-- Python `dict.update({k: v})`: replace in place if the key exists,
append otherwise. -/
def dictUpdate (d : List (String × String)) (k v : String) : List (String × String) :=
  if (d.lookup k).isSome then d.map (fun p => if p.1 == k then (k, v) else p)
  else d ++ [(k, v)]

/-- `envfile2envdict`, modelled on the list of lines of the source file
(the function returns an empty dict when the file is missing; file access
itself is outside the embedding). -/
def envfile2envdict (lines : List String) : List (String × String) :=
  lines.foldl
    (fun envdict line =>
      match re_export_match line with
      | none => envdict
      | some p => dictUpdate envdict p.1 p.2)
    []

example : re_export_match "export FOO = \"bar\"" = some ("FOO", "bar") := by decide
example : re_export_match "echo hi" = none := by decide
example : re_export_match "Export FOO = 1" = none := by decide
example : re_export_match "export FOO\t= 1" = none := by decide
example : re_export_match "export =1" = some ("", "1") := by decide
example : re_export_match "export FOO = bar" = some ("FOO", "bar") := by decide
example : re_export_match ("export FOO = " ++ String.mk (quoteS :: "bar".data ++ [quoteS])) =
    some ("FOO", "bar") := by decide
example : re_export_match ("export FOO = " ++ String.mk (quoteD :: "bar".data ++ [quoteS])) =
    some ("FOO", "bar") := by decide
example : envfile2envdict ["export FOO = \"bar\"", "echo hi"] = [("FOO", "bar")] := by decide

/-!
## `copy_cfg_files`

The template directory is modelled as a list of directory entries
(`os.listdir` order), each with its name, whether it is a regular file
(`os.path.isfile`), and its lines (each line carries its trailing newline, as
Python file iteration yields it).  The destination directory tree is an
association list from path to file lines; `open(dst, "w")` followed by the
line loop is a single `write` of the transformed lines.
-/

/-- A template-directory entry: name, `os.path.isfile` result, file lines. -/
structure TemplateEntry where
  fname : String
  isFile : Bool
  lines : List String
deriving DecidableEq, Repr

/-- A file system fragment: association from path to list of lines. -/
structure FS where
  files : List (String × List String)
deriving DecidableEq, Repr

/-- Content of the file at `p`, if present (`none`: no such file). -/
def FS.read (fs : FS) (p : String) : Option (List String) := fs.files.lookup p

/-- `os.path.isfile` on the modelled tree. -/
def FS.isFile (fs : FS) (p : String) : Bool := (fs.read p).isSome

/-- `open(p, "w")` + write: the new content shadows any previous one. -/
def FS.write (fs : FS) (p : String) (content : List String) : FS :=
  ⟨(p, content) :: fs.files⟩

/-- `os.path.join(a, b)` for a relative `b`. -/
def pathJoin (a b : String) : String := a ++ "/" ++ b

/-- The `exclude_regex` computed at the top of `copy_cfg_files`:
`"(%s)|" % "|".join([re.escape(p.strip()) for p in exclude_lint.split(",") if p and p.strip()])`
when `exclude_lint` is non-empty, `""` otherwise. -/
def buildExcludeRegex (exclude_lint : String) : String :=
  if exclude_lint = "" then ""
  else
    "(" ++
      joinSep "|"
        ((splitComma exclude_lint).filterMap
          (fun p => if p ≠ "" && strTrim p ≠ "" then some (reEscape (strTrim p)) else none)) ++
    ")|"

/-- The body of the line loop of `copy_cfg_files`: the two conditional
substitutions applied to one line before it is written to `fdst`. -/
def transformLine (fname exclude_lint disable_pylint_checks line : String) : String :=
  let line1 :=
    if exclude_lint ≠ "" && strStartsWith fname ".pre-commit-config" &&
        strContains line "# EXCLUDE_LINT" then
      "    " ++ buildExcludeRegex exclude_lint ++ "\n"
    else line
  if disable_pylint_checks ≠ "" && strStartsWith fname ".pre-commit-config" &&
      strContains line1 "--disable=R0000" then
    strReplace line1 "R0000" disable_pylint_checks
  else line1

/-- One iteration of the `for fname in os.listdir(...)` loop of
`copy_cfg_files`: skip names that neither start with `.` nor equal
`pyproject.toml`, skip non-files, skip an existing destination unless
`overwrite`, otherwise copy line by line with `transformLine`. -/
def copyStep (repo_dirname : String) (overwrite : Bool)
    (exclude_lint disable_pylint_checks : String) (fs : FS) (e : TemplateEntry) : FS :=
  if !strStartsWith e.fname "." && e.fname ≠ "pyproject.toml" then fs
  else if !e.isFile then fs
  else
    let dst := pathJoin repo_dirname e.fname
    if !overwrite && fs.isFile dst then fs
    else fs.write dst (e.lines.map (transformLine e.fname exclude_lint disable_pylint_checks))

/-- `copy_cfg_files(precommit_config_dir, repo_dirname, overwrite, exclude_lint,
disable_pylint_checks)`: the loop over the template-directory entries. -/
def copy_cfg_files (precommit_config_dir : List TemplateEntry) (repo_dirname : String)
    (overwrite : Bool) (exclude_lint disable_pylint_checks : String) (fs : FS) : FS :=
  precommit_config_dir.foldl
    (copyStep repo_dirname overwrite exclude_lint disable_pylint_checks) fs

example : buildExcludeRegex "a,b" = "(a|b)|" := by decide
example : transformLine ".pre-commit-config.yaml" "a,b" "" "    # EXCLUDE_LINT\n" = "    (a|b)|\n" := by decide
example : transformLine ".pre-commit-config.yaml" "" "W0101" "args: [--disable=R0000]\n" = "args: [--disable=W0101]\n" := by decide

/-!
## The orchestrator `main`

External effects are abstracted into an environment record: whether the
current working directory equals the repository root, the `git ls-files`
result for the sub-path case, and the exit statuses the three
`pre-commit run` invocations would return.  Exit statuses of subprocesses
are modelled as naturals (process exit codes).  The outcome records the
`sys.exit` code, the `all_status` dictionary (insertion-ordered), and which
checker tiers were actually run.
-/

/-- Python `logging.ERROR`. -/
def loggingERROR : Nat := 40

/-- Python `logging.WARNING`. -/
def loggingWARNING : Nat := 30

/-- Python `logging.INFO`. -/
def loggingINFO : Nat := 20

/-- One value of the `all_status` dictionary in `main`. -/
structure TierResult where
  status : Nat
  level : Nat
  status_msg : String
deriving DecidableEq, Repr

/-- The external-world inputs of one run of `main`. -/
structure MainEnv where
  cwdEqRepo : Bool
  files : List String
  cwdShort : String
  enableAutoFix : Bool
  autofixStatus : Nat
  mandatoryStatus : Nat
  optionalStatus : Nat
deriving DecidableEq, Repr

/-- Outcome of a run of `main` (with `do_exit = True`): either the
`UserWarning` raise, or termination via `sys.exit` with the `all_status`
dictionary and the list of checker tiers that were invoked. -/
inductive MainOutcome where
  | raised (msg : String) (runCalls : List String)
  | finished (exitCode : Nat) (all_status : List (String × TierResult)) (runCalls : List String)
deriving DecidableEq, Repr

/-- The checker-tier portion of `main` (lines 126-189 of the source):
file-scope resolution with its fatal empty-list check, the optional autofix
tier, the mandatory tier, the optional tier, and `sys.exit(0 if status == 0
else 1)`. -/
def main (env : MainEnv) : MainOutcome :=
  if !env.cwdEqRepo && env.files.isEmpty then
    .raised ("Not files detected in current path " ++ env.cwdShort) []
  else
    let autofixPart : Nat × List (String × TierResult) × List String :=
      if env.enableAutoFix then
        (env.autofixStatus,
         [("Autofix checks",
           { status := env.autofixStatus
             level := if env.autofixStatus ≠ 0 then loggingERROR else loggingINFO
             status_msg := if env.autofixStatus ≠ 0 then "Reformatted" else "Passed" })],
         ["autofix"])
      else (0, [], [])
    let status := autofixPart.1 + env.mandatoryStatus
    let mandatoryTier : TierResult :=
      { status := env.mandatoryStatus
        level := if status ≠ 0 then loggingERROR else loggingINFO
        status_msg := if status ≠ 0 then "Failed" else "Passed" }
    let optionalTier : TierResult :=
      { status := env.optionalStatus
        level := if env.optionalStatus ≠ 0 then loggingWARNING else loggingINFO
        status_msg := if env.optionalStatus ≠ 0 then "Failed" else "Passed" }
    .finished (if status = 0 then 0 else 1)
      (autofixPart.2.1 ++
        [("Mandatory checks", mandatoryTier), ("Optional checks", optionalTier)])
      (autofixPart.2.2 ++ ["mandatory", "optional"])

/-- The `sys.exit` code of an outcome, `none` when the run raised. -/
def exitCodeOf : MainOutcome → Option Nat
  | .raised _ _ => none
  | .finished ec _ _ => some ec

/-- The `all_status` dictionary of an outcome (empty when the run raised). -/
def tiersOf : MainOutcome → List (String × TierResult)
  | .raised _ _ => []
  | .finished _ st _ => st

/-- The checker tiers that were invoked. -/
def runCallsOf : MainOutcome → List String
  | .raised _ calls => calls
  | .finished _ _ calls => calls

/-!
## `print_summary`

The colorizing collaborator `logging_colored.colorized_msg` is outside the
repository; `print_summary` is parameterized by it.  The conditional on
`test_result['status']` is kept exactly as in the source, where both branches
are the same expression.
-/

/-- Python `"{:<28}".format(s)`: left-align, pad with spaces to width 28. -/
def leftAlign28 (s : String) : String :=
  s ++ String.mk (List.replicate (28 - s.data.length) ' ')

/-- `print_summary(all_status)`, returning the logged text block; `colorize`
stands for `logging_colored.colorized_msg`. -/
def print_summary (colorize : String → Nat → String)
    (all_status : List (String × TierResult)) : String :=
  let rows := all_status.map
    (fun p =>
      let outcome :=
        if p.2.status ≠ 0 then colorize p.2.status_msg p.2.level
        else colorize p.2.status_msg p.2.level
      "| " ++ leftAlign28 p.1 ++ outcome)
  joinSep "\n"
    (["+" ++ String.mk (List.replicate 39 '='),
      "|  Tests summary:",
      "|" ++ String.mk (List.replicate 39 '-')] ++
     rows ++
     ["+" ++ String.mk (List.replicate 39 '=')])

/-!
## Claims about the orchestrator
-/

/-- C1: for every run of `main`, the process exit code is 0 when the autofix
tier (if enabled) and the mandatory tier both return exit code zero, and 1
otherwise; the optional tier's exit code never affects the process exit
code. -/
theorem main_exit_code (env : MainEnv) (h : env.cwdEqRepo = true ∨ env.files ≠ []) :
    exitCodeOf (main env) =
      some (if (env.enableAutoFix = true → env.autofixStatus = 0) ∧ env.mandatoryStatus = 0
            then 0 else 1) ∧
    ∀ o, exitCodeOf (main { env with optionalStatus := o }) = exitCodeOf (main env) := by
  have hg : (!env.cwdEqRepo && env.files.isEmpty) = false := by
    rcases h with h1 | h2
    · simp [h1]
    · simp [h2]
  refine ⟨?_, ?_⟩
  · cases hfix : env.enableAutoFix
    · by_cases hm : env.mandatoryStatus = 0
      · simp [main, hg, exitCodeOf, hfix, hm]
      · simp [main, hg, exitCodeOf, hfix, hm]
    · by_cases hc : env.autofixStatus + env.mandatoryStatus = 0
      · have ha : env.autofixStatus = 0 := by omega
        have hm : env.mandatoryStatus = 0 := by omega
        simp [main, hg, exitCodeOf, hfix, ha, hm]
      · have hni : ¬ ((env.enableAutoFix = true → env.autofixStatus = 0) ∧
            env.mandatoryStatus = 0) := by
          intro hand
          exact hc (by have := hand.1 hfix; omega)
        simp [main, hg, exitCodeOf, hfix, hc, hni]
        rw [if_neg]
        rintro ⟨ha, hm⟩
        omega
  · intro o
    simp [main, hg, exitCodeOf]

/-- C1 witness: a concrete run (autofix enabled and clean, mandatory clean,
optional failing with exit code 5) exits with code 0. -/
theorem main_exit_code_witness :
    ((⟨true, [], "", true, 0, 0, 5⟩ : MainEnv).cwdEqRepo = true ∨
      (⟨true, [], "", true, 0, 0, 5⟩ : MainEnv).files ≠ []) ∧
    exitCodeOf (main ⟨true, [], "", true, 0, 0, 5⟩) =
      some (if ((⟨true, [], "", true, 0, 0, 5⟩ : MainEnv).enableAutoFix = true →
                (⟨true, [], "", true, 0, 0, 5⟩ : MainEnv).autofixStatus = 0) ∧
               (⟨true, [], "", true, 0, 0, 5⟩ : MainEnv).mandatoryStatus = 0
            then 0 else 1) ∧
    exitCodeOf (main { (⟨true, [], "", true, 0, 0, 5⟩ : MainEnv) with optionalStatus := 7 }) =
      exitCodeOf (main ⟨true, [], "", true, 0, 0, 5⟩) :=
  ⟨Or.inl rfl,
   (main_exit_code ⟨true, [], "", true, 0, 0, 5⟩ (Or.inl rfl)).1,
   (main_exit_code ⟨true, [], "", true, 0, 0, 5⟩ (Or.inl rfl)).2 7⟩

/-- C2: the mandatory tier's recorded severity and message come from the
cumulative status (autofix + mandatory), not from its own exit code alone:
with autofix enabled and non-zero, the mandatory tier is recorded as
`ERROR`/"Failed" whatever its own exit code (in particular when it is 0). -/
theorem mandatory_tier_cumulative (env : MainEnv)
    (h : env.cwdEqRepo = true ∨ env.files ≠ [])
    (hfix : env.enableAutoFix = true) (hnz : env.autofixStatus ≠ 0) :
    (tiersOf (main env)).lookup "Mandatory checks" =
      some ⟨env.mandatoryStatus, loggingERROR, "Failed"⟩ := by
  have hg : (!env.cwdEqRepo && env.files.isEmpty) = false := by
    rcases h with h1 | h2
    · simp [h1]
    · simp [h2]
  have hs : env.autofixStatus + env.mandatoryStatus ≠ 0 := by omega
  have hb : ("Mandatory checks" == "Autofix checks") = false := by decide
  simp [main, hg, hfix, tiersOf, List.lookup, hs, hb]

/-- C2 witness: autofix enabled with exit code 2, mandatory checker itself
returning 0 — the mandatory tier is still recorded as `ERROR`/"Failed". -/
theorem mandatory_tier_cumulative_witness :
    ((⟨true, [], "", true, 2, 0, 0⟩ : MainEnv).cwdEqRepo = true ∨
      (⟨true, [], "", true, 2, 0, 0⟩ : MainEnv).files ≠ []) ∧
    (⟨true, [], "", true, 2, 0, 0⟩ : MainEnv).enableAutoFix = true ∧
    (⟨true, [], "", true, 2, 0, 0⟩ : MainEnv).autofixStatus ≠ 0 ∧
    (tiersOf (main ⟨true, [], "", true, 2, 0, 0⟩)).lookup "Mandatory checks" =
      some ⟨0, loggingERROR, "Failed"⟩ :=
  ⟨Or.inl rfl, rfl, by decide,
   mandatory_tier_cumulative ⟨true, [], "", true, 2, 0, 0⟩ (Or.inl rfl) rfl (by decide)⟩

/-- C3: when the current working directory differs from the repository root
and the tracked-file list under it is empty, `main` raises the fatal
"Not files detected" `UserWarning` and invokes no checker tier. -/
theorem subpath_empty_files_raises (env : MainEnv)
    (h1 : env.cwdEqRepo = false) (h2 : env.files = []) :
    main env = .raised ("Not files detected in current path " ++ env.cwdShort) [] ∧
    runCallsOf (main env) = [] := by
  constructor
  · simp [main, h1, h2]
  · simp [main, h1, h2, runCallsOf]

/-- C3 witness: a concrete sub-path run with an empty tracked-file list. -/
theorem subpath_empty_files_raises_witness :
    ((⟨false, [], "sub", false, 0, 0, 0⟩ : MainEnv).cwdEqRepo = false) ∧
    ((⟨false, [], "sub", false, 0, 0, 0⟩ : MainEnv).files = []) ∧
    (main ⟨false, [], "sub", false, 0, 0, 0⟩ =
      .raised ("Not files detected in current path " ++
        (⟨false, [], "sub", false, 0, 0, 0⟩ : MainEnv).cwdShort) [] ∧
     runCallsOf (main ⟨false, [], "sub", false, 0, 0, 0⟩) = []) :=
  ⟨rfl, rfl, subpath_empty_files_raises ⟨false, [], "sub", false, 0, 0, 0⟩ rfl rfl⟩

/-!
## Claims about the parser
-/

/-- C7: for the input line `export FOO = "bar"` the result mapping contains
`FOO -> bar` with the quote characters stripped; the non-matching line
`echo hi` adds no entry. -/
theorem envdict_export_and_nonmatching :
    envfile2envdict ["export FOO = \"bar\""] = [("FOO", "bar")] ∧
    envfile2envdict ["export FOO = \"bar\"", "echo hi"] = [("FOO", "bar")] := by
  decide

/-- C9: the variable group of `re_export` accepts zero word characters, so
the line `export =1` puts the empty string into the mapping as a key. -/
theorem envdict_empty_variable_name :
    envfile2envdict ["export =1"] = [("", "1")] := by decide

/-!
## Claims about the distributor
-/

/-- Writing a different path leaves the content read at `q` unchanged. -/
theorem FS.read_write_ne (fs : FS) (p q : String) (content : List String)
    (h : p ≠ q) : (fs.write p content).read q = fs.read q := by
  have hb : (q == p) = false := by
    simp only [beq_eq_false_iff_ne, ne_eq]
    exact fun hq => h hq.symm
  simp [FS.write, FS.read, List.lookup, hb]

/-- One loop iteration with `overwrite = False` never changes the content of
a path that already holds a file. -/
theorem copyStep_read_preserved (repo excl dis : String) (fs : FS) (e : TemplateEntry)
    (dst : String) (h : fs.isFile dst = true) :
    (copyStep repo false excl dis fs e).read dst = fs.read dst := by
  unfold copyStep
  split
  · rfl
  · split
    · rfl
    · dsimp only
      split
      · rfl
      · rename_i hguard
        have hne : pathJoin repo e.fname ≠ dst := by
          intro heq
          exact hguard (by simp [heq, h])
        exact FS.read_write_ne fs _ dst _ hne

/-- C4: with `overwrite` false, a destination path that already holds a file
keeps its exact content across `copy_cfg_files` — the entry is skipped. -/
theorem copy_cfg_files_no_overwrite (precommit_config_dir : List TemplateEntry)
    (repo excl dis : String) (fs : FS) (dst : String) (h : fs.isFile dst = true) :
    (copy_cfg_files precommit_config_dir repo false excl dis fs).read dst = fs.read dst := by
  induction precommit_config_dir generalizing fs with
  | nil => rfl
  | cons e rest ih =>
    have hstep := copyStep_read_preserved repo excl dis fs e dst h
    have hfile : (copyStep repo false excl dis fs e).isFile dst = true := by
      unfold FS.isFile
      rw [hstep]
      exact h
    calc (copy_cfg_files (e :: rest) repo false excl dis fs).read dst
        = (copy_cfg_files rest repo false excl dis (copyStep repo false excl dis fs e)).read dst := rfl
      _ = (copyStep repo false excl dis fs e).read dst := ih _ hfile
      _ = fs.read dst := hstep

/-- C4 witness: a pre-existing `r/.cfg` is untouched when `overwrite` is
false, although the template holds a `.cfg` with different content. -/
theorem copy_cfg_files_no_overwrite_witness :
    (FS.mk [("r/.cfg", ["old\n"])]).isFile "r/.cfg" = true ∧
    (copy_cfg_files [⟨".cfg", true, ["new\n"]⟩] "r" false "" "" ⟨[("r/.cfg", ["old\n"])]⟩).read "r/.cfg" =
      (FS.mk [("r/.cfg", ["old\n"])]).read "r/.cfg" :=
  ⟨by decide,
   copy_cfg_files_no_overwrite [⟨".cfg", true, ["new\n"]⟩] "r" "" "" ⟨[("r/.cfg", ["old\n"])]⟩
     "r/.cfg" (by decide)⟩

/-- C5 counterexample: with exclusion list `"a,b"` the marker line becomes
`"    (a|b)|\n"` — one parenthesized group around the OR-join — and not the
claimed `"    (a)|(b)|\n"` (no escaping applies to `a` or `b`, so there is
no differing "escaped form" either). -/
theorem exclude_line_shape_counterexample :
    transformLine ".pre-commit-config.yaml" "a,b" "" "    # EXCLUDE_LINT\n" = "    (a|b)|\n" ∧
    transformLine ".pre-commit-config.yaml" "a,b" "" "    # EXCLUDE_LINT\n" ≠ "    (a)|(b)|\n" := by
  decide

/-- C5 amended: when a copied file's name starts with `.pre-commit-config`
and the exclusion list is `"a,b"`, every line containing `# EXCLUDE_LINT` is
replaced wholesale by `"    (a|b)|\n"` — four-space indent, the escaped
trimmed non-empty entries OR-joined inside a single parenthesized group,
followed by `|` — and the marker token is no longer present. -/
theorem exclude_line_substitution (fname line : String)
    (hf : strStartsWith fname ".pre-commit-config" = true)
    (hl : strContains line "# EXCLUDE_LINT" = true) :
    transformLine fname "a,b" "" line = "    (a|b)|\n" ∧
    strContains (transformLine fname "a,b" "" line) "# EXCLUDE_LINT" = false := by
  have h1 : transformLine fname "a,b" "" line = "    " ++ buildExcludeRegex "a,b" ++ "\n" := by
    unfold transformLine
    simp [hf, hl]
  rw [h1]
  constructor
  · decide
  · decide

/-- C5 witness: the end-to-end scenario line `"    # EXCLUDE_LINT\n"` inside
`.pre-commit-config.yaml`. -/
theorem exclude_line_substitution_witness :
    strStartsWith ".pre-commit-config.yaml" ".pre-commit-config" = true ∧
    strContains "    # EXCLUDE_LINT\n" "# EXCLUDE_LINT" = true ∧
    (transformLine ".pre-commit-config.yaml" "a,b" "" "    # EXCLUDE_LINT\n" = "    (a|b)|\n" ∧
     strContains (transformLine ".pre-commit-config.yaml" "a,b" "" "    # EXCLUDE_LINT\n")
       "# EXCLUDE_LINT" = false) :=
  ⟨by decide, by decide,
   exclude_line_substitution ".pre-commit-config.yaml" "    # EXCLUDE_LINT\n"
     (by decide) (by decide)⟩

/-- C6 counterexample: `.flake8` is a copied file (hidden, regular), a
non-empty disable token is supplied and its line contains `--disable=R0000`,
yet the written output keeps the placeholder verbatim: the substitution is
restricted to files whose name starts with `.pre-commit-config`. -/
theorem disable_sub_counterexample :
    (copy_cfg_files [⟨".flake8", true, ["ignore --disable=R0000\n"]⟩] "r" true "" "W0101"
        ⟨[]⟩).read "r/.flake8" = some ["ignore --disable=R0000\n"] ∧
    strReplace "ignore --disable=R0000\n" "R0000" "W0101" ≠ "ignore --disable=R0000\n" := by
  decide

/-- C6 amended: during `copy_cfg_files`, for every copied file whose name
starts with `.pre-commit-config`, whenever a non-empty disable token is
supplied and a line contains `--disable=R0000` (and not the exclusion
marker), the placeholder `R0000` is replaced by the token in the written
line. -/
theorem disable_substitution (fname exclude_lint disable line : String)
    (hd : disable ≠ "")
    (hf : strStartsWith fname ".pre-commit-config" = true)
    (hm : strContains line "# EXCLUDE_LINT" = false)
    (hl : strContains line "--disable=R0000" = true) :
    transformLine fname exclude_lint disable line = strReplace line "R0000" disable := by
  unfold transformLine
  simp [hf, hm, hl, hd]

/-- C6 witness: a pylint argument line in `.pre-commit-config.yaml` with
token `W0101`. -/
theorem disable_substitution_witness :
    ("W0101" : String) ≠ "" ∧
    strStartsWith ".pre-commit-config.yaml" ".pre-commit-config" = true ∧
    strContains "args: [--disable=R0000]\n" "# EXCLUDE_LINT" = false ∧
    strContains "args: [--disable=R0000]\n" "--disable=R0000" = true ∧
    transformLine ".pre-commit-config.yaml" "" "W0101" "args: [--disable=R0000]\n" =
      strReplace "args: [--disable=R0000]\n" "R0000" "W0101" :=
  ⟨by decide, by decide, by decide, by decide,
   disable_substitution ".pre-commit-config.yaml" "" "W0101" "args: [--disable=R0000]\n"
     (by decide) (by decide) (by decide) (by decide)⟩

/-!
## Claim about the reporter
-/

/-- C10: the rendered summary depends only on each tier's status message and
severity level, never on the numeric `status` field — both branches of the
conditional in `print_summary` are the same expression, so zeroing every
status yields the identical text block. -/
theorem print_summary_status_independent (colorize : String → Nat → String)
    (all_status : List (String × TierResult)) :
    print_summary colorize
        (all_status.map (fun p => (p.1, ⟨0, p.2.level, p.2.status_msg⟩))) =
      print_summary colorize all_status := by
  unfold print_summary
  simp [List.map_map, Function.comp_def]

/-!
## C8: what shapes of `export` lines the pattern accepts
-/

/-- A list starts with itself (followed by anything). -/
theorem startsWithL_append_self (xs ys : List Char) : startsWithL (xs ++ ys) xs = true := by
  induction xs with
  | nil => cases ys <;> rfl
  | cons x rest ih => simp [startsWithL, ih]

/-- `EXPORT...` does not start with `export`. -/
theorem startsWithL_EXPORT_not_export (R : List Char) :
    startsWithL ("EXPORT".data ++ R) ("export".data) = false := by
  have hc : (('E' : Char) = 'e') = False := by simp
  show (decide (('E' : Char) = 'e') && startsWithL ("XPORT".data ++ R) ("xport".data)) = false
  simp [hc]

/-- A greedy span over a block of `p`-characters followed by a non-`p` head
splits exactly at the block boundary. -/
theorem takeSpan_append (p : Char → Bool) (ys : List Char)
    (h2 : ∀ ch, ys.head? = some ch → p ch = false) :
    ∀ xs : List Char, (∀ ch ∈ xs, p ch = true) → takeSpan p (xs ++ ys) = (xs, ys) := by
  intro xs
  induction xs with
  | nil =>
    intro _
    cases ys with
    | nil => rfl
    | cons y rest =>
      have hy := h2 y rfl
      simp [takeSpan, hy]
  | cons x rest ih =>
    intro h1
    have hx : p x = true := h1 x (List.mem_cons_self x rest)
    simp [takeSpan, hx, ih (fun ch hc => h1 ch (List.mem_cons_of_mem x hc))]

/-- A word character is not the space character. -/
theorem wordChar_not_space (ch : Char) (h : isWordChar ch = true) :
    (decide (ch = ' ')) = false := by
  cases hd : decide (ch = ' ') with
  | false => rfl
  | true =>
    exfalso
    have hsp : ch = ' ' := of_decide_eq_true hd
    rw [hsp] at h
    exact absurd h (by decide)

/-- Head condition for a list with a known head. -/
theorem head_cons_case (p : Char → Bool) (t : Char) (rest : List Char) (ht : p t = false) :
    ∀ ch, (t :: rest).head? = some ch → p ch = false := by
  intro ch h
  have hch : t = ch := by simpa using h
  rw [← hch]
  exact ht

/-- Head condition for a space-padded list with a known terminator. -/
theorem head_replicate_case (p : Char → Bool) (f t : Char) (b : Nat) (rest : List Char)
    (hf : p f = false) (ht : p t = false) :
    ∀ ch, (List.replicate b f ++ t :: rest).head? = some ch → p ch = false := by
  cases b with
  | zero =>
    intro ch h
    exact head_cons_case p t rest ht ch (by simpa using h)
  | succ n =>
    intro ch h
    have hch : f = ch := by simpa [List.replicate_succ] using h
    rw [← hch]
    exact hf

/-- The empty pattern is a prefix of everything. -/
theorem startsWithL_nil_pat (xs : List Char) : startsWithL xs [] = true := by
  cases xs <;> rfl

/-- A value-class character is not the double quote. -/
theorem valueChar_not_quoteD (ch : Char) (h : isValueChar ch = true) :
    (decide (ch = quoteD)) = false := by
  cases hd : decide (ch = quoteD) with
  | false => rfl
  | true =>
    exfalso
    have hq : ch = quoteD := of_decide_eq_true hd
    rw [hq] at h
    exact absurd h (by decide)

/-- A value-class character is not the single quote. -/
theorem valueChar_not_quoteS (ch : Char) (h : isValueChar ch = true) :
    (decide (ch = quoteS)) = false := by
  cases hd : decide (ch = quoteS) with
  | false => rfl
  | true =>
    exfalso
    have hq : ch = quoteS := of_decide_eq_true hd
    rw [hq] at h
    exact absurd h (by decide)

/-- `re_export_rest` on `spaces · NAME · spaces · "=" · spaces · [quote] ·
VALUE · [quote]` returns the `NAME` and `VALUE` groups.  Each of the two
quotes is independently absent, `"` or `'` (they may be mismatched); when no
opening quote is present, VALUE must not begin with a space, since the
greedy `[ ]*` before the value group consumes it. -/
theorem re_export_rest_spec (name value lq tq : List Char) (a b c : Nat)
    (hn : name ≠ []) (hword : ∀ ch ∈ name, isWordChar ch = true)
    (hval : ∀ ch ∈ value, isValueChar ch = true)
    (hlq : lq = [] ∨ lq = [quoteD] ∨ lq = [quoteS])
    (htq : tq = [] ∨ tq = [quoteD] ∨ tq = [quoteS])
    (hns : lq = [] → startsWithL value [' '] = false) :
    re_export_rest
      (List.replicate (a + 1) ' ' ++ (name ++ (List.replicate b ' ' ++
        ('=' :: (List.replicate c ' ' ++ (lq ++ (value ++ tq))))))) =
      some (name, value) := by
  obtain ⟨n0, ns, rfl⟩ := List.exists_cons_of_ne_nil hn
  have hrepl : ∀ (m : Nat) (ch : Char), ch ∈ List.replicate m ' ' →
      (decide (ch = ' ')) = true := by
    intro m ch hch
    rw [List.eq_of_mem_replicate hch]
    decide
  have htail : ∀ ch, (lq ++ (value ++ tq)).head? = some ch →
      (decide (ch = ' ')) = false := by
    rcases hlq with h | h | h <;> subst h
    · simp only [List.nil_append]
      cases value with
      | nil =>
        rcases htq with h2 | h2 | h2 <;> subst h2
        · intro ch hch
          simp at hch
        · exact head_cons_case _ quoteD [] (by decide)
        · exact head_cons_case _ quoteS [] (by decide)
      | cons v0 vs =>
        intro ch hch
        have hv : v0 = ch := by simpa using hch
        have hsw2 : (decide (v0 = ' ') && startsWithL vs []) = false := hns rfl
        rw [startsWithL_nil_pat, Bool.and_true] at hsw2
        rw [← hv]
        exact hsw2
    · exact head_cons_case _ quoteD _ (by decide)
    · exact head_cons_case _ quoteS _ (by decide)
  have hsp1 : takeSpan (fun ch => decide (ch = ' '))
      (List.replicate (a + 1) ' ' ++ ((n0 :: ns) ++ (List.replicate b ' ' ++
        ('=' :: (List.replicate c ' ' ++ (lq ++ (value ++ tq))))))) =
      (List.replicate (a + 1) ' ', (n0 :: ns) ++ (List.replicate b ' ' ++
        ('=' :: (List.replicate c ' ' ++ (lq ++ (value ++ tq)))))) := by
    apply takeSpan_append
    · intro ch h
      have hch : n0 = ch := by simpa using h
      rw [← hch]
      exact wordChar_not_space n0 (hword n0 (List.mem_cons_self n0 ns))
    · exact hrepl (a + 1)
  have hvar : takeSpan isWordChar ((n0 :: ns) ++ (List.replicate b ' ' ++
      ('=' :: (List.replicate c ' ' ++ (lq ++ (value ++ tq)))))) =
      (n0 :: ns, List.replicate b ' ' ++
        ('=' :: (List.replicate c ' ' ++ (lq ++ (value ++ tq))))) := by
    apply takeSpan_append
    · exact head_replicate_case isWordChar ' ' '='  b _ (by decide) (by decide)
    · exact hword
  have hsp2 : takeSpan (fun ch => decide (ch = ' ')) (List.replicate b ' ' ++
      ('=' :: (List.replicate c ' ' ++ (lq ++ (value ++ tq))))) =
      (List.replicate b ' ',
        '=' :: (List.replicate c ' ' ++ (lq ++ (value ++ tq)))) := by
    apply takeSpan_append
    · exact head_cons_case _ '=' _ (by decide)
    · exact hrepl b
  have hsp3 : takeSpan (fun ch => decide (ch = ' '))
      (List.replicate c ' ' ++ (lq ++ (value ++ tq))) =
      (List.replicate c ' ', lq ++ (value ++ tq)) := by
    apply takeSpan_append
    · exact htail
    · exact hrepl c
  have hvalspan : takeSpan isValueChar (value ++ tq) = (value, tq) := by
    apply takeSpan_append
    · rcases htq with h | h | h <;> subst h
      · intro ch hch
        simp at hch
      · exact head_cons_case _ quoteD [] (by decide)
      · exact head_cons_case _ quoteS [] (by decide)
    · exact hval
  have hne1 : (List.replicate (a + 1) ' ').isEmpty = false := by
    rw [List.replicate_succ]
    rfl
  have hqDD : (decide (quoteD = quoteD)) = true := by decide
  have hqDS : (decide (quoteD = quoteS)) = false := by decide
  have hqSD : (decide (quoteS = quoteD)) = false := by decide
  have hqSS : (decide (quoteS = quoteS)) = true := by decide
  simp only [re_export_rest, hsp1, hne1, hvar, hsp2, hsp3, Bool.false_eq_true, if_false]
  rcases hlq with h | h | h <;> subst h
  · cases value with
    | nil =>
      rcases htq with h2 | h2 | h2 <;> subst h2
      · simp [takeSpan]
      · simp [hqDD, takeSpan]
      · simp [hqSD, hqSS, takeSpan]
    | cons v0 vs =>
      have hv0 : isValueChar v0 = true := hval v0 (List.mem_cons_self v0 vs)
      have h1 : (decide (v0 = quoteD)) = false := valueChar_not_quoteD v0 hv0
      have h2 : (decide (v0 = quoteS)) = false := valueChar_not_quoteS v0 hv0
      have hvs := hvalspan
      simp only [List.cons_append] at hvs
      simp [h1, h2, hvs]
  · simp [hqDD, hvalspan]
  · simp [hqSD, hqSS, hvalspan]

/-- `re_export_matchL` on a full export line built from either keyword
alternative, with each quote independently optional. -/
theorem re_export_matchL_spec (kwd name value lq tq : List Char) (a b c : Nat)
    (hkw : kwd = "export".data ∨ kwd = "EXPORT".data) (hn : name ≠ [])
    (hword : ∀ ch ∈ name, isWordChar ch = true)
    (hval : ∀ ch ∈ value, isValueChar ch = true)
    (hlq : lq = [] ∨ lq = [quoteD] ∨ lq = [quoteS])
    (htq : tq = [] ∨ tq = [quoteD] ∨ tq = [quoteS])
    (hns : lq = [] → startsWithL value [' '] = false) :
    re_export_matchL
      (kwd ++ (List.replicate (a + 1) ' ' ++ (name ++ (List.replicate b ' ' ++
        ('=' :: (List.replicate c ' ' ++ (lq ++ (value ++ tq)))))))) =
      some (name, value) := by
  rcases hkw with h | h <;> subst h
  · unfold re_export_matchL
    rw [startsWithL_append_self]
    show re_export_rest (List.replicate (a + 1) ' ' ++ (name ++ (List.replicate b ' ' ++
      ('=' :: (List.replicate c ' ' ++ (lq ++ (value ++ tq))))))) =
      some (name, value)
    exact re_export_rest_spec name value lq tq a b c hn hword hval hlq htq hns
  · unfold re_export_matchL
    rw [startsWithL_EXPORT_not_export, startsWithL_append_self]
    show re_export_rest (List.replicate (a + 1) ' ' ++ (name ++ (List.replicate b ' ' ++
      ('=' :: (List.replicate c ' ' ++ (lq ++ (value ++ tq))))))) =
      some (name, value)
    exact re_export_rest_spec name value lq tq a b c hn hword hval hlq htq hns

/-- C8 counterexample: the keyword alternation `export|EXPORT` is compiled
without `re.IGNORECASE` and the whitespace classes around `=` are `[ ]`, so a
`Export` keyword or tabs around `=` yield no entry — against the claim that
they still produce one. -/
theorem re_export_case_and_tabs_counterexample :
    re_export_match "Export FOO = 1" = none ∧
    re_export_match "export FOO\t=\t1" = none ∧
    envfile2envdict ["Export FOO = 1", "export FOO\t=\t1"] = [] := by decide

/-- C8 amended: the parser recognizes every line
`export NAME = [quote] VALUE [quote]` where the keyword is exactly `export`
or `EXPORT` (each alternative case-sensitive), the whitespace after the
keyword and around `=` consists of space characters only (one or more after
the keyword, any number around `=`), and each of the two quotes is
independently absent, `"` or `'` (possibly mismatched; when no opening quote
is present VALUE must not begin with a space, which the greedy `[ ]*` before
the value group would consume), producing a `NAME -> VALUE` entry. -/
theorem re_export_recognizes (kw name value lead trail : String) (a b c : Nat)
    (hkw : kw = "export" ∨ kw = "EXPORT")
    (hn : name.data ≠ [])
    (hword : name.data.all isWordChar = true)
    (hval : value.data.all isValueChar = true)
    (hlead : lead = "" ∨ lead = String.mk [quoteD] ∨ lead = String.mk [quoteS])
    (htrail : trail = "" ∨ trail = String.mk [quoteD] ∨ trail = String.mk [quoteS])
    (hns : lead = "" → strStartsWith value " " = false) :
    re_export_match
      (kw ++ String.mk (List.replicate (a + 1) ' ') ++ name ++
       String.mk (List.replicate b ' ') ++ "=" ++ String.mk (List.replicate c ' ') ++
       lead ++ value ++ trail) = some (name, value) := by
  have hword2 : ∀ ch ∈ name.data, isWordChar ch = true := fun ch hch =>
    List.all_eq_true.mp hword ch hch
  have hval2 : ∀ ch ∈ value.data, isValueChar ch = true := fun ch hch =>
    List.all_eq_true.mp hval ch hch
  have hkwd : kw.data = "export".data ∨ kw.data = "EXPORT".data := by
    rcases hkw with h | h
    · exact Or.inl (by rw [h])
    · exact Or.inr (by rw [h])
  have hlq : lead.data = [] ∨ lead.data = [quoteD] ∨ lead.data = [quoteS] := by
    rcases hlead with h | h | h
    · exact Or.inl (by rw [h])
    · exact Or.inr (Or.inl (by rw [h]))
    · exact Or.inr (Or.inr (by rw [h]))
  have htq : trail.data = [] ∨ trail.data = [quoteD] ∨ trail.data = [quoteS] := by
    rcases htrail with h | h | h
    · exact Or.inl (by rw [h])
    · exact Or.inr (Or.inl (by rw [h]))
    · exact Or.inr (Or.inr (by rw [h]))
  have hns2 : lead.data = [] → startsWithL value.data [' '] = false := by
    intro h
    exact hns (String.ext (by rw [h]))
  have hdata : (kw ++ String.mk (List.replicate (a + 1) ' ') ++ name ++
      String.mk (List.replicate b ' ') ++ "=" ++ String.mk (List.replicate c ' ') ++
      lead ++ value ++ trail).data =
      kw.data ++ (List.replicate (a + 1) ' ' ++ (name.data ++ (List.replicate b ' ' ++
        ('=' :: (List.replicate c ' ' ++ (lead.data ++ (value.data ++ trail.data))))))) := by
    simp [String.data_append, List.append_assoc]
  unfold re_export_match
  rw [hdata, re_export_matchL_spec kw.data name.data value.data lead.data trail.data a b c
    hkwd hn hword2 hval2 hlq htq hns2]
  rfl

/-- C8 witness: the unquoted line `export FOO = bar` is recognized and
yields `FOO -> bar`. -/
theorem re_export_recognizes_witness :
    (("export" : String) = "export" ∨ ("export" : String) = "EXPORT") ∧
    ("FOO" : String).data ≠ [] ∧
    ("FOO" : String).data.all isWordChar = true ∧
    ("bar" : String).data.all isValueChar = true ∧
    (("" : String) = "" ∨ ("" : String) = String.mk [quoteD] ∨
      ("" : String) = String.mk [quoteS]) ∧
    (("" : String) = "" → strStartsWith "bar" " " = false) ∧
    re_export_match ("export" ++ String.mk (List.replicate (0 + 1) ' ') ++ "FOO" ++
      String.mk (List.replicate 1 ' ') ++ "=" ++ String.mk (List.replicate 1 ' ') ++
      "" ++ "bar" ++ "") = some ("FOO", "bar") :=
  ⟨Or.inl rfl, by decide, by decide, by decide, Or.inl rfl, by decide,
   re_export_recognizes "export" "FOO" "bar" "" "" 0 1 1 (Or.inl rfl) (by decide) (by decide)
     (by decide) (Or.inl rfl) (Or.inl rfl) (by decide)⟩

end PreCommitVauxoo
